import Mathlib

/-!
Verification of the client-side authentication/session-gating slice of the
AgentForge front end: the session store (`AuthProvider` in
`src/frontend/src/context/AuthContext.js`), the route guard (`PrivateRoute`),
the login handler (`Login.js`, `handleSubmit`) and the logout handler
(`Navbar.js`, `handleLogout`), shallowly embedded as pure functions on an
explicit application state.
-/

/-- Application state visible to the auth slice: the in-memory
`isAuthenticated` flag held by `AuthProvider` (AuthContext.js line 12,
`useState(false)`), and the durable-storage `token` key of `localStorage`
(`none` when absent, `some s` when the string `s` is stored). -/
structure AppState where
  isAuthenticated : Bool
  token : Option String
  deriving DecidableEq

/-- JavaScript truthiness of the value returned by
`localStorage.getItem('token')`: `null` (absent) and the empty string are
falsy, every other string is truthy.  This is the `!!token` of
AuthContext.js line 17. -/
def truthy : Option String → Bool
  | none => false
  | some s => if s = "" then false else true

/-- State at application boot, before the mount effect has run:
`useState(false)` (AuthContext.js line 12) with the given durable-storage
contents. -/
def useStateInit (token : Option String) : AppState :=
  { isAuthenticated := false, token := token }

/-- Body of the mount effect of `AuthProvider` (AuthContext.js lines 14-18):
read the `token` key from `localStorage` and set the flag to its
truthiness.  Purely local, total: no network call, no failure case. -/
def initializeAuth (s : AppState) : AppState :=
  { s with isAuthenticated := truthy s.token }

/-- The context setter `setIsAuthenticated` (AuthContext.js line 12):
overwrites the in-memory flag; it does not touch `localStorage`. -/
def setIsAuthenticated (v : Bool) (s : AppState) : AppState :=
  { s with isAuthenticated := v }

/-- Success path of `handleSubmit` in Login.js (lines 23-32): writes the
issued `access_token` to `localStorage` under the `token` key
(`localStorage.setItem`, line 29) and navigates home.  Note that it never
calls `setIsAuthenticated`: the in-memory flag is left unchanged. -/
def loginSuccess (access_token : String) (s : AppState) : AppState :=
  { s with token := some access_token }

/-- Error path of `handleSubmit` in Login.js (lines 33-36): the catch block
only logs the error and shows a toast; neither the flag nor `localStorage`
is touched, whatever the error was. -/
def loginFailure (_error : String) (s : AppState) : AppState :=
  s

/-- `handleLogout` in Navbar.js (lines 20-23): removes the `token` key from
`localStorage` and then calls `setIsAuthenticated(false)`. -/
def handleLogout (s : AppState) : AppState :=
  setIsAuthenticated false { s with token := none }

/-- Render outcome of a route: either an ordinary subtree (identified by a
label) or a `Navigate` element carrying its `to` path and its `replace`
flag. -/
inductive View where
  | subtree : String → View
  | navigate : String → Bool → View
  deriving DecidableEq

/-- `PrivateRoute` (src/unnamed/part_003 lines 11-15): renders `children`
when `isAuthenticated` is true, otherwise returns
`<Navigate to="/login" replace />`. -/
def PrivateRoute (isAuthenticated : Bool) (children : View) : View :=
  if isAuthenticated then children else View.navigate "/login" true

/-- The `replace` flag of a view when it is a `Navigate` element. -/
def isReplace : View → Option Bool
  | View.subtree _ => none
  | View.navigate _ r => some r

/-- History semantics of the navigation host (react-router, the spec's
"redirect instruction" collaborator): the history is a stack of paths with
the current entry on top; a `Navigate` with `replace` swaps the current
entry for the target, without `replace` it pushes the target; rendering a
subtree leaves history untouched. -/
def applyView : View → List String → List String
  | View.subtree _, h => h
  | View.navigate p true, h => p :: h.tail
  | View.navigate p false, h => p :: h

/-- Post-boot user events of the auth slice: a login request that succeeded
with an issued token, a login request that failed with some error, and a
logout click. -/
inductive Event where
  | loginSuccess : String → Event
  | loginFailure : String → Event
  | logout : Event
  deriving DecidableEq

/-- Whether an event is a successful login. -/
def isLoginEvent : Event → Bool
  | Event.loginSuccess _ => true
  | _ => false

/-- Effect of one post-boot event on the application state, per the three
handlers above. -/
def step : Event → AppState → AppState
  | Event.loginSuccess t, s => loginSuccess t s
  | Event.loginFailure e, s => loginFailure e s
  | Event.logout, s => handleLogout s

/-- One observable step of the boot sequence: either dependent components
read the flag during a render pass, or the mount effect runs. -/
inductive BootStep where
  | readFlag : Bool → BootStep
  | runInit : BootStep
  deriving DecidableEq

/-- Whether a boot step is the run of the mount effect. -/
def isInit : BootStep → Bool
  | BootStep.runInit => true
  | BootStep.readFlag _ => false

/-- The flag value read by a boot step, when it is a read. -/
def flagOf : BootStep → Option Bool
  | BootStep.readFlag b => some b
  | BootStep.runInit => none

/-- Boot sequence of the mounted tree, following the host's (React's)
ordering for a `useEffect` with an empty dependency list: the first render
pass reads the `useState` initial value, then the effect runs exactly once,
then the `setIsAuthenticated` call inside it triggers a re-render that
reads the updated flag. -/
def bootTrace (token : Option String) : List BootStep :=
  [BootStep.readFlag (useStateInit token).isAuthenticated,
   BootStep.runInit,
   BootStep.readFlag (initializeAuth (useStateInit token)).isAuthenticated]

/-- Flag values read by dependent components strictly before the mount
effect has run. -/
def readsBeforeInit (token : Option String) : List Bool :=
  ((bootTrace token).takeWhile (fun b => !(isInit b))).filterMap flagOf

/-- The spec's wording for the storage condition: the stored credential is
present and is a non-empty string. -/
def storageHasNonEmptyCredential (token : Option String) : Prop :=
  ∃ t, token = some t ∧ t ≠ ""

/-- C1: for every requested guarded view and every flag value, `PrivateRoute`
returns the login redirect whenever the flag is false and the requested
subtree unchanged whenever it is true; when denied, the result is the same
constant redirect for all requested views. -/
theorem privateRoute_guards (children : View) (flag : Bool) :
    (flag = false → PrivateRoute flag children = View.navigate "/login" true) ∧
    (flag = true → PrivateRoute flag children = children) := by
  cases flag <;> simp [PrivateRoute]

/-- Witness for C1 at a concrete guarded view. -/
theorem privateRoute_guards_witness :
    PrivateRoute false (View.subtree "Models") = View.navigate "/login" true ∧
    PrivateRoute true (View.subtree "Models") = View.subtree "Models" :=
  ⟨(privateRoute_guards (View.subtree "Models") false).1 rfl,
   (privateRoute_guards (View.subtree "Models") true).2 rfl⟩

/-- C2: for every durable-storage state at boot, after the mount effect has
run the flag is true exactly when the stored credential is a non-empty
string; the effect is a total local function (no network call, no error
outcome). -/
theorem initialize_flag_iff_nonempty_credential (token : Option String) :
    (initializeAuth (useStateInit token)).isAuthenticated = true ↔
      storageHasNonEmptyCredential token := by
  cases token with
  | none =>
      simp [initializeAuth, useStateInit, truthy, storageHasNonEmptyCredential]
  | some t =>
      by_cases h : t = "" <;>
        simp [initializeAuth, useStateInit, truthy, storageHasNonEmptyCredential, h]

/-- C3 (failing evaluation): boot with empty storage, then a successful
login storing "tok123".  When the login handler completes, storage holds a
non-empty credential but the flag is still false — the divergence persists
beyond the action, because `handleSubmit` never calls `setIsAuthenticated`. -/
theorem login_leaves_flag_storage_diverged :
    (step (Event.loginSuccess "tok123") (initializeAuth (useStateInit none))).isAuthenticated
        = false ∧
    (step (Event.loginSuccess "tok123") (initializeAuth (useStateInit none))).token
        = some "tok123" ∧
    truthy (step (Event.loginSuccess "tok123") (initializeAuth (useStateInit none))).token
        = true := by
  refine ⟨rfl, rfl, ?_⟩
  decide

/-- C4 (failing evaluation): a successful login stores the issued credential
but leaves the flag at its prior value, so when the login operation
completes `Get()` still returns false from the logged-out boot state. -/
theorem login_never_sets_flag :
    (step (Event.loginSuccess "tok123") (initializeAuth (useStateInit none))).isAuthenticated
      = false := rfl

/-- C5: logout removes the credential and sets the flag false, so after
logout `Get()` returns false, the stored credential is absent, and every
subsequently evaluated guarded view — the guard being a pure function of
the current flag, this covers re-navigation and back-navigation alike —
redirects to login. -/
theorem logout_clears_flag_and_token (s : AppState) (children : View) :
    (handleLogout s).isAuthenticated = false ∧
    (handleLogout s).token = none ∧
    PrivateRoute (handleLogout s).isAuthenticated children
      = View.navigate "/login" true :=
  ⟨rfl, rfl, rfl⟩

/-- C6 (counterexample): with a non-empty credential "tok123" already in
storage, the boot trace's first element is a dependent read of the flag
that precedes the run of the mount effect — so a `Get()` observable by a
dependent component does precede the completion of initialization, and it
reads false even though a credential is stored. -/
theorem flag_read_precedes_initialize :
    readsBeforeInit (some "tok123") = [false] ∧
    (bootTrace (some "tok123")).head? = some (BootStep.readFlag false) ∧
    truthy (some "tok123") = true := by
  refine ⟨?_, rfl, ?_⟩ <;> decide

/-- C6 (amended): the mount effect runs exactly once per application
lifetime, but only after the first render: dependent components can read
the flag before it completes, every such pre-initialization read observes
the fail-closed default false, and the read after it completes equals the
presence of a non-empty stored credential. -/
theorem initialize_once_after_first_render (token : Option String) :
    ((bootTrace token).filter isInit).length = 1 ∧
    readsBeforeInit token = [false] ∧
    (bootTrace token).getLast? = some (BootStep.readFlag (truthy token)) :=
  ⟨rfl, rfl, rfl⟩

/-- C7: whenever the guard denies access (flag false), the returned redirect
targets the login view with the `replace` flag set, and applying it to the
navigation history swaps out the current (denied) entry instead of pushing
a new one, so the denied view is no longer the previous history entry. -/
theorem denied_redirect_replaces_history (children : View) (cur : String)
    (rest : List String) :
    PrivateRoute false children = View.navigate "/login" true ∧
    isReplace (PrivateRoute false children) = some true ∧
    applyView (PrivateRoute false children) (cur :: rest) = "/login" :: rest :=
  ⟨rfl, rfl, rfl⟩

/-- C8: a failed login attempt changes nothing — for every error outcome the
state (flag and stored credential) is exactly as before — and every
post-boot event that changes the flag is either a successful login turning
it from false to true or a logout turning it from true to false. -/
theorem failed_login_changes_nothing :
    (∀ err s, step (Event.loginFailure err) s = s) ∧
    (∀ e s, (step e s).isAuthenticated ≠ s.isAuthenticated →
      (isLoginEvent e = true ∧ s.isAuthenticated = false ∧
        (step e s).isAuthenticated = true) ∨
      (e = Event.logout ∧ s.isAuthenticated = true ∧
        (step e s).isAuthenticated = false)) := by
  refine ⟨fun err s => rfl, fun e s h => ?_⟩
  cases e with
  | loginSuccess t => exact absurd rfl h
  | loginFailure err => exact absurd rfl h
  | logout =>
      right
      refine ⟨rfl, ?_, rfl⟩
      cases hs : s.isAuthenticated with
      | false =>
          exact absurd (by simp [step, handleLogout, setIsAuthenticated, hs]) h
      | true => rfl

/-- Witness for C8: the logout event from a logged-in state with credential
"tok123" changes the flag, and the theorem classifies it as a logout
transition from true to false. -/
theorem failed_login_changes_nothing_witness :
    (isLoginEvent Event.logout = true ∧
      (AppState.mk true (some "tok123")).isAuthenticated = false ∧
      (step Event.logout (AppState.mk true (some "tok123"))).isAuthenticated = true) ∨
    (Event.logout = Event.logout ∧
      (AppState.mk true (some "tok123")).isAuthenticated = true ∧
      (step Event.logout (AppState.mk true (some "tok123"))).isAuthenticated = false) :=
  failed_login_changes_nothing.2 Event.logout (AppState.mk true (some "tok123"))
    (by decide)

/-- C9: for every boolean `v`, `setIsAuthenticated v` overwrites the flag
with `v` and leaves the durable-storage `token` key identical to what it
was before the call. -/
theorem set_overwrites_flag_preserves_storage (v : Bool) (s : AppState) :
    (setIsAuthenticated v s).isAuthenticated = v ∧
    (setIsAuthenticated v s).token = s.token :=
  ⟨rfl, rfl⟩

/-- C10: from application start until the mount effect completes, the flag
is false regardless of the durable-storage contents — the only read before
initialization observes false — so a guarded view evaluated before
initialization redirects to login even when a non-empty credential is
stored: the guard can deny spuriously during startup but never grant
spuriously. -/
theorem preinit_fail_closed (token : Option String) (children : View) :
    (useStateInit token).isAuthenticated = false ∧
    readsBeforeInit token = [false] ∧
    PrivateRoute (useStateInit token).isAuthenticated children
      = View.navigate "/login" true :=
  ⟨rfl, rfl, rfl⟩
